import Mathlib

/-!
Shallow embedding of `ray_ban_ble_emulator.c` (Flipper Zero Ray-Ban BLE
emulator): device profile table, advertisement payload builder, beacon
controller (`ble_start` / `ble_stop`), teardown (`app_free`) and the
screen/input event loop (`ray_ban_ble_app`), together with theorems
checking the natural-language specification against this code.

Bytes are modelled as `Nat` values (all literals are below 256 and no
arithmetic can overflow a byte here).  Radio-driver and notification
calls are side effects: each operation returns, besides the new
application state, the list of external calls it issued, in order.
The radio driver's `furi_hal_bt_extra_beacon_start` result is a Boolean
oracle passed in explicitly.
-/

/-- One entry of the C `DeviceProfile` struct. -/
structure DeviceProfile where
  short_name : String
  long_name : String
  cid_str : String
  cid_lo : Nat
  cid_hi : Nat
deriving DecidableEq, Repr

/-- `kDevices[DeviceMeta2]`. -/
def devMeta2 : DeviceProfile :=
  { short_name := "Meta Tech", long_name := "Meta Platforms Tech",
    cid_str := "0x058E", cid_lo := 0x8E, cid_hi := 0x05 }

/-- `kDevices[DeviceMeta1]`. -/
def devMeta1 : DeviceProfile :=
  { short_name := "Meta Inc.", long_name := "Meta Platforms, Inc.",
    cid_str := "0x01AB", cid_lo := 0xAB, cid_hi := 0x01 }

/-- `kDevices[DeviceLuxottica]`. -/
def devLuxottica : DeviceProfile :=
  { short_name := "Luxottica", long_name := "EssilorLuxottica",
    cid_str := "0x0D53", cid_lo := 0x53, cid_hi := 0x0D }

/-- `kDevices[DeviceSnap]`. -/
def devSnap : DeviceProfile :=
  { short_name := "Snap Spectacles", long_name := "Snapchat, Inc.",
    cid_str := "0x03C2", cid_lo := 0xC2, cid_hi := 0x03 }

/-- The static device table `kDevices`, in `DeviceIndex` order. -/
def kDevices : List DeviceProfile := [devMeta2, devMeta1, devLuxottica, devSnap]

/-- `DeviceCount`, the last member of the `DeviceIndex` enum. -/
def DeviceCount : Nat := kDevices.length

/-- `kDevices[i]` — the C array access; in the program `i` is always a
valid `DeviceIndex`, so the default is never reached. -/
def profileAt (i : Nat) : DeviceProfile := kDevices.getD i devMeta2

/-- The 16-bit company identifier carried by a profile, assembled from
its little-endian wire bytes `cid_lo`, `cid_hi`. -/
def companyId (p : DeviceProfile) : Nat := p.cid_hi * 256 + p.cid_lo

/-- `kEmulatedMac`, the fixed 6-byte address used for the beacon. -/
def kEmulatedMac : List Nat := [0x5E, 0x9A, 0x3C, 0x1D, 0x87, 0x42]

/-- `build_adv_data` — the sequence of bytes written to `out`; the C
function returns the final index `i`, which equals the length of this
list. -/
def build_adv_data (p : DeviceProfile) : List Nat :=
  [0x02, 0x01, 0x06,
   0x05, 0xFF, p.cid_lo, p.cid_hi, 0x00, 0x00]

/-- `GapAdvChannelMap` values used by the program. -/
inductive GapAdvChannelMap where
  | all
deriving DecidableEq, Repr

/-- `GapAdvPowerLevel` values used by the program. -/
inductive GapAdvPowerLevel where
  | dBm6
deriving DecidableEq, Repr

/-- `GapAddressType` values. -/
inductive GapAddressType where
  | publicAddr
  | random
deriving DecidableEq, Repr

/-- `GapExtraBeaconConfig` as filled in by `ble_start`. -/
structure GapExtraBeaconConfig where
  min_adv_interval_ms : Nat
  max_adv_interval_ms : Nat
  adv_channel_map : GapAdvChannelMap
  adv_power_level : GapAdvPowerLevel
  address_type : GapAddressType
  address : List Nat
deriving DecidableEq, Repr

/-- The fixed configuration built inside `ble_start` (after the
`memcpy` of `kEmulatedMac` into `cfg.address`). -/
def bleConfig : GapExtraBeaconConfig :=
  { min_adv_interval_ms := 100, max_adv_interval_ms := 200,
    adv_channel_map := GapAdvChannelMap.all,
    adv_power_level := GapAdvPowerLevel.dBm6,
    address_type := GapAddressType.random,
    address := kEmulatedMac }

/-- External calls the application issues, in program order: the four
`furi_hal_bt_extra_beacon_*` radio-driver calls, the two notification
sequences, and the resource-release tail of `app_free`. -/
inductive Effect where
  | extraBeaconStop
  | extraBeaconSetData (data : List Nat)
  | extraBeaconSetConfig (cfg : GapExtraBeaconConfig)
  | extraBeaconStart
  | notifyBlinkStartBlue
  | notifyBlinkStop
  | freeResources
deriving DecidableEq, Repr

/-- `AppScreen`. -/
inductive AppScreen where
  | screenMenu
  | screenAdvertising
deriving DecidableEq, Repr

/-- The mutable fields of the C `App` struct (the GUI/queue handles are
external collaborators and carry no program state). -/
structure App where
  screen : AppScreen
  selected : Nat
  advertising : Bool
deriving DecidableEq, Repr

/-- `ble_start` — `ok` is the Boolean returned by
`furi_hal_bt_extra_beacon_start()`.  Returns the updated `App` and the
external calls issued, in order. -/
def ble_start (app : App) (ok : Bool) : App × List Effect :=
  let p := profileAt app.selected
  let adv_data := build_adv_data p
  ({ app with advertising := ok },
   [Effect.extraBeaconStop,
    Effect.extraBeaconSetData adv_data,
    Effect.extraBeaconSetConfig bleConfig,
    Effect.extraBeaconStart]
   ++ (if ok then [Effect.notifyBlinkStartBlue] else []))

/-- `ble_stop`. -/
def ble_stop (app : App) : App × List Effect :=
  ({ app with advertising := false },
   [Effect.extraBeaconStop, Effect.notifyBlinkStop])

/-- `app_free` — `ble_stop` is invoked only when `app->advertising`
holds; afterwards the GUI, notification record, queue and `App` are
released (`Effect.freeResources`). -/
def app_free (app : App) : App × List Effect :=
  let r := if app.advertising then ble_stop app else (app, [])
  (r.1, r.2 ++ [Effect.freeResources])

/-- `InputKey` — the Flipper input keys. -/
inductive InputKey where
  | up
  | down
  | right
  | left
  | ok
  | back
deriving DecidableEq, Repr

/-- `InputType` — the Flipper input event types. -/
inductive InputType where
  | press
  | release
  | shortT
  | longT
  | repeatT
deriving DecidableEq, Repr

/-- `InputEvent`. -/
structure InputEvent where
  key : InputKey
  type : InputType
deriving DecidableEq, Repr

/-- `app->selected` after `InputKeyUp` in the menu:
`(app->selected == 0) ? DeviceCount - 1 : app->selected - 1`. -/
def menuUp (sel : Nat) : Nat := if sel = 0 then DeviceCount - 1 else sel - 1

/-- `app->selected` after `InputKeyDown` in the menu:
`(app->selected + 1) % DeviceCount`. -/
def menuDown (sel : Nat) : Nat := (sel + 1) % DeviceCount

/-- The event-loop state of `ray_ban_ble_app`: the `App` plus the
`running` flag. -/
structure LoopState where
  app : App
  running : Bool
deriving DecidableEq, Repr

/-- The state set up by `app_alloc`, with the loop `running`. -/
def initialState : LoopState :=
  { app := { screen := AppScreen.screenMenu, selected := 0, advertising := false },
    running := true }

/-- One iteration of the `ray_ban_ble_app` while-loop for a delivered
input event (queue timeouts only re-render and change nothing).
`startOk` is the radio driver's answer should `ble_start` be reached.
Returns the next loop state and the external calls issued. -/
def app_step (s : LoopState) (ev : InputEvent) (startOk : Bool) : LoopState × List Effect :=
  if ev.type ≠ InputType.press ∧ ev.type ≠ InputType.repeatT then (s, [])
  else
    match s.app.screen with
    | AppScreen.screenMenu =>
      match ev.key with
      | InputKey.up =>
        ({ s with app := { s.app with selected := menuUp s.app.selected } }, [])
      | InputKey.down =>
        ({ s with app := { s.app with selected := menuDown s.app.selected } }, [])
      | InputKey.ok =>
        let r := ble_start s.app startOk
        let a := r.1
        ({ s with
            app := if a.advertising then { a with screen := AppScreen.screenAdvertising } else a },
         r.2)
      | InputKey.back => ({ s with running := false }, [])
      | _ => (s, [])
    | AppScreen.screenAdvertising =>
      if ev.key = InputKey.back then
        let r := ble_stop s.app
        ({ s with app := { r.1 with screen := AppScreen.screenMenu } }, r.2)
      else (s, [])

/-- Loop states reachable from `initialState` by delivered input events
(with an arbitrary radio answer at each step). -/
inductive Reachable : LoopState → Prop where
  | init : Reachable initialState
  | step (s : LoopState) (ev : InputEvent) (ok : Bool) :
      Reachable s → Reachable (app_step s ev ok).1

/-- Auxiliary radio-level interpretation of an effect trace: `running`
tracks whether a beacon configuration is live.  `noLiveReconfig` holds
when no `extraBeaconSetData` or `extraBeaconSetConfig` call is issued
while a beacon is running, i.e. a live beacon is never reconfigured and
no two configurations can ever be simultaneously active. -/
def noLiveReconfig : Bool → List Effect → Bool
  | _, [] => true
  | _, Effect.extraBeaconStop :: rest => noLiveReconfig false rest
  | running, Effect.extraBeaconSetData _ :: rest => !running && noLiveReconfig running rest
  | running, Effect.extraBeaconSetConfig _ :: rest => !running && noLiveReconfig running rest
  | _, Effect.extraBeaconStart :: rest => noLiveReconfig true rest
  | running, Effect.notifyBlinkStartBlue :: rest => noLiveReconfig running rest
  | running, Effect.notifyBlinkStop :: rest => noLiveReconfig running rest
  | running, Effect.freeResources :: rest => noLiveReconfig running rest

/-- Claim C1: for every profile in the device table, `build_adv_data`
returns exactly 9 bytes — a Flags element `02 01 06` followed by a
Manufacturer-Specific-Data element `05 FF cid_lo cid_hi 00 00` with the
company ID little-endian and two zero placeholder bytes. -/
theorem build_adv_data_layout (p : DeviceProfile) (_hp : p ∈ kDevices) :
    build_adv_data p =
      [0x02, 0x01, 0x06, 0x05, 0xFF, p.cid_lo, p.cid_hi, 0x00, 0x00] ∧
    (build_adv_data p).length = 9 :=
  ⟨rfl, rfl⟩

theorem build_adv_data_layout_witness :
    build_adv_data devMeta2 =
      [0x02, 0x01, 0x06, 0x05, 0xFF, devMeta2.cid_lo, devMeta2.cid_hi, 0x00, 0x00] ∧
    (build_adv_data devMeta2).length = 9 :=
  build_adv_data_layout devMeta2 (List.Mem.head _)

/-- Claim C2: from the initial menu state, Down, Down selects index 2
(company ID 0x0D53, EssilorLuxottica); Confirm with a successful radio
start builds the payload `02 01 06 05 FF 53 0D 00 00` and shows the
Advertising screen; a subsequent Back issues the radio stop, returns to
the Menu screen and clears `advertising`. -/
theorem scenario_luxottica :
    (app_step (app_step initialState ⟨InputKey.down, InputType.press⟩ true).1
        ⟨InputKey.down, InputType.press⟩ true).1.app.selected = 2 ∧
    companyId (profileAt 2) = 0x0D53 ∧
    profileAt 2 = devLuxottica ∧
    build_adv_data (profileAt 2) = [0x02, 0x01, 0x06, 0x05, 0xFF, 0x53, 0x0D, 0x00, 0x00] ∧
    (app_step (app_step (app_step initialState ⟨InputKey.down, InputType.press⟩ true).1
        ⟨InputKey.down, InputType.press⟩ true).1
        ⟨InputKey.ok, InputType.press⟩ true).2.contains
      (Effect.extraBeaconSetData [0x02, 0x01, 0x06, 0x05, 0xFF, 0x53, 0x0D, 0x00, 0x00]) = true ∧
    (app_step (app_step (app_step initialState ⟨InputKey.down, InputType.press⟩ true).1
        ⟨InputKey.down, InputType.press⟩ true).1
        ⟨InputKey.ok, InputType.press⟩ true).1.app.screen = AppScreen.screenAdvertising ∧
    (app_step (app_step (app_step initialState ⟨InputKey.down, InputType.press⟩ true).1
        ⟨InputKey.down, InputType.press⟩ true).1
        ⟨InputKey.ok, InputType.press⟩ true).1.app.advertising = true ∧
    (app_step (app_step (app_step (app_step initialState ⟨InputKey.down, InputType.press⟩ true).1
        ⟨InputKey.down, InputType.press⟩ true).1
        ⟨InputKey.ok, InputType.press⟩ true).1
        ⟨InputKey.back, InputType.press⟩ true).2.contains Effect.extraBeaconStop = true ∧
    (app_step (app_step (app_step (app_step initialState ⟨InputKey.down, InputType.press⟩ true).1
        ⟨InputKey.down, InputType.press⟩ true).1
        ⟨InputKey.ok, InputType.press⟩ true).1
        ⟨InputKey.back, InputType.press⟩ true).1.app.screen = AppScreen.screenMenu ∧
    (app_step (app_step (app_step (app_step initialState ⟨InputKey.down, InputType.press⟩ true).1
        ⟨InputKey.down, InputType.press⟩ true).1
        ⟨InputKey.ok, InputType.press⟩ true).1
        ⟨InputKey.back, InputType.press⟩ true).1.app.advertising = false := by
  decide

/-- Claim C3: every `ble_start` invocation issues the radio stop request
first, before `extraBeaconSetData`, `extraBeaconSetConfig` and
`extraBeaconStart`; consequently for two consecutive `ble_start` calls
with no intervening `ble_stop`, whatever beacon was running is stopped
before any reconfiguration, and no two beacon configurations are ever
simultaneously live (`noLiveReconfig` holds from any radio state). -/
theorem ble_start_stops_before_reconfig (a b : App) (ok1 ok2 r : Bool) :
    (ble_start a ok1).2.take 4 =
      [Effect.extraBeaconStop,
       Effect.extraBeaconSetData (build_adv_data (profileAt a.selected)),
       Effect.extraBeaconSetConfig bleConfig,
       Effect.extraBeaconStart] ∧
    noLiveReconfig r ((ble_start a ok1).2 ++ (ble_start b ok2).2) = true := by
  cases ok1 <;> cases ok2 <;>
    simp [ble_start, noLiveReconfig]

/-- Claim C4: in the Menu screen, Confirm moves to the Advertising
screen exactly when the radio driver reports a successful start; on
failure the screen stays Menu and `advertising` stays false. -/
theorem confirm_iff_start_success (s : LoopState) (ok : Bool)
    (h : s.app.screen = AppScreen.screenMenu) :
    ((app_step s ⟨InputKey.ok, InputType.press⟩ ok).1.app.screen =
        AppScreen.screenAdvertising ↔ ok = true) ∧
    (ok = false →
      (app_step s ⟨InputKey.ok, InputType.press⟩ ok).1.app.screen = AppScreen.screenMenu ∧
      (app_step s ⟨InputKey.ok, InputType.press⟩ ok).1.app.advertising = false) := by
  obtain ⟨⟨scr, sel, adv⟩, run⟩ := s
  simp only at h
  subst h
  cases ok <;> simp [app_step, ble_start]

theorem confirm_iff_start_success_witness :
    ((app_step initialState ⟨InputKey.ok, InputType.press⟩ false).1.app.screen =
        AppScreen.screenAdvertising ↔ false = true) ∧
    (false = false →
      (app_step initialState ⟨InputKey.ok, InputType.press⟩ false).1.app.screen =
        AppScreen.screenMenu ∧
      (app_step initialState ⟨InputKey.ok, InputType.press⟩ false).1.app.advertising = false) :=
  confirm_iff_start_success initialState false rfl

/-- Claim C5, counterexample: tearing down with `advertising = false`
issues no radio stop at all — `app_free` guards the `ble_stop` call with
`if(app->advertising)`, so stop is NOT always issued regardless of the
recorded advertising state. -/
theorem app_free_no_stop_when_idle :
    ¬ Effect.extraBeaconStop ∈
      (app_free { screen := AppScreen.screenMenu, selected := 0,
                  advertising := false }).2 := by
  decide

/-- Claim C5, amended: during teardown, `app_free` issues the radio stop
exactly when `advertising` is true; in that case stop is invoked exactly
once, and it precedes the release of the remaining resources, so no
advertisement outlives the process. -/
theorem app_free_stops_iff_advertising (app : App) :
    (app.advertising = true →
      (app_free app).2.count Effect.extraBeaconStop = 1 ∧
      (app_free app).2 =
        [Effect.extraBeaconStop, Effect.notifyBlinkStop, Effect.freeResources]) ∧
    (app.advertising = false → (app_free app).2 = [Effect.freeResources]) := by
  obtain ⟨scr, sel, adv⟩ := app
  cases adv <;> simp [app_free, ble_stop, List.count_cons]

theorem app_free_stops_iff_advertising_witness :
    (app_free { screen := AppScreen.screenAdvertising, selected := 2,
                advertising := true }).2.count Effect.extraBeaconStop = 1 ∧
    (app_free { screen := AppScreen.screenAdvertising, selected := 2,
                advertising := true }).2 =
      [Effect.extraBeaconStop, Effect.notifyBlinkStop, Effect.freeResources] :=
  (app_free_stops_iff_advertising
    { screen := AppScreen.screenAdvertising, selected := 2, advertising := true }).1 rfl

/-- Claim C6: in the Menu screen, Up and Down move the selection
cyclically modulo `DeviceCount`: Up from 0 wraps to `DeviceCount - 1`,
Down from `DeviceCount - 1` wraps to 0, and Up then Down (or Down then
Up) restores the original index. -/
theorem menu_selection_cycles (s : LoopState)
    (hscr : s.app.screen = AppScreen.screenMenu)
    (hsel : s.app.selected < DeviceCount) :
    (s.app.selected = 0 →
      (app_step s ⟨InputKey.up, InputType.press⟩ true).1.app.selected = DeviceCount - 1) ∧
    (s.app.selected = DeviceCount - 1 →
      (app_step s ⟨InputKey.down, InputType.press⟩ true).1.app.selected = 0) ∧
    (app_step (app_step s ⟨InputKey.up, InputType.press⟩ true).1
        ⟨InputKey.down, InputType.press⟩ true).1.app.selected = s.app.selected ∧
    (app_step (app_step s ⟨InputKey.down, InputType.press⟩ true).1
        ⟨InputKey.up, InputType.press⟩ true).1.app.selected = s.app.selected := by
  obtain ⟨⟨scr, sel, adv⟩, run⟩ := s
  simp only at hscr hsel
  subst hscr
  have hdc : DeviceCount = 4 := rfl
  rw [hdc] at hsel
  simp only [app_step, menuUp, menuDown, hdc]
  norm_num
  split_ifs <;> omega

theorem menu_selection_cycles_witness :
    ((initialState.app.selected = 0 →
      (app_step initialState ⟨InputKey.up, InputType.press⟩ true).1.app.selected =
        DeviceCount - 1)) ∧
    (app_step (app_step initialState ⟨InputKey.down, InputType.press⟩ true).1
        ⟨InputKey.up, InputType.press⟩ true).1.app.selected = initialState.app.selected :=
  ⟨(menu_selection_cycles initialState rfl (by decide)).1,
   (menu_selection_cycles initialState rfl (by decide)).2.2.2⟩

/-- Claim C7: `ble_stop` unconditionally leaves `advertising = false` in
every state, and when no beacon is recorded as running
(`advertising = false`) it is a no-op on the session state. -/
theorem ble_stop_idempotent (app : App) :
    (ble_stop app).1.advertising = false ∧
    (app.advertising = false → (ble_stop app).1 = app) := by
  obtain ⟨scr, sel, adv⟩ := app
  cases adv <;> simp [ble_stop]

theorem ble_stop_idempotent_witness :
    (ble_stop initialState.app).1.advertising = false ∧
    (ble_stop initialState.app).1 = initialState.app :=
  ⟨(ble_stop_idempotent initialState.app).1,
   (ble_stop_idempotent initialState.app).2 rfl⟩

/-- Whether the top two bits of a byte are set — the BLE requirement on
the most significant byte of a random static address. -/
def topTwoBitsSet (b : Nat) : Bool := b &&& 0xC0 == 0xC0

/-- Claim C8, evaluation at the failing input: `kEmulatedMac` is the
fixed `5E 9A 3C 1D 87 42` and `ble_start` configures it with address
type random; but neither `0x42` (byte 5, the most significant byte in
little-endian wire order) nor `0x5E` (byte 0, most significant if the
array is kept big-endian) has its top two bits set, so under either
byte-order reading the address violates the BLE random-static-address
rule the claim asserts. -/
theorem kEmulatedMac_not_static_random :
    kEmulatedMac = [0x5E, 0x9A, 0x3C, 0x1D, 0x87, 0x42] ∧
    bleConfig.address_type = GapAddressType.random ∧
    bleConfig.address = kEmulatedMac ∧
    kEmulatedMac.length = 6 ∧
    topTwoBitsSet (kEmulatedMac.getD 5 0) = false ∧
    topTwoBitsSet (kEmulatedMac.getD 0 0) = false := by
  decide

/-- Claim C9, step lemma: a single event-loop iteration preserves the
invariant "Advertising screen implies `advertising = true`". -/
theorem app_step_preserves_screen_invariant (s : LoopState) (ev : InputEvent) (ok : Bool)
    (ih : s.app.screen = AppScreen.screenAdvertising → s.app.advertising = true) :
    (app_step s ev ok).1.app.screen = AppScreen.screenAdvertising →
    (app_step s ev ok).1.app.advertising = true := by
  obtain ⟨⟨scr, sel, adv⟩, run⟩ := s
  obtain ⟨k, t⟩ := ev
  simp only at ih
  cases t <;> cases scr <;> cases k <;> cases ok <;>
    simp_all [app_step, ble_start, ble_stop]

/-- Claim C9: in every loop state reachable from the initial state by
input events, the Advertising screen is shown only while the session
records an active beacon (`advertising = true`). -/
theorem reachable_screen_invariant (s : LoopState) (h : Reachable s) :
    s.app.screen = AppScreen.screenAdvertising → s.app.advertising = true := by
  induction h with
  | init => intro hs; simp [initialState] at hs
  | step s' ev ok _ ih => exact app_step_preserves_screen_invariant s' ev ok ih

theorem reachable_screen_invariant_witness :
    (app_step initialState ⟨InputKey.ok, InputType.press⟩ true).1.app.advertising = true :=
  reachable_screen_invariant
    (app_step initialState ⟨InputKey.ok, InputType.press⟩ true).1
    (Reachable.step initialState ⟨InputKey.ok, InputType.press⟩ true Reachable.init)
    (by decide)

/-- Claim C10: an event that is neither a press nor a repeat (release,
short or long) leaves the loop state — screen, selected index,
`advertising` and `running` — unchanged and issues no external call, in
particular no beacon start or stop. -/
theorem non_press_event_is_noop (s : LoopState) (ev : InputEvent) (ok : Bool)
    (h1 : ev.type ≠ InputType.press) (h2 : ev.type ≠ InputType.repeatT) :
    app_step s ev ok = (s, []) := by
  unfold app_step
  rw [if_pos ⟨h1, h2⟩]

theorem non_press_event_is_noop_witness :
    app_step initialState ⟨InputKey.back, InputType.release⟩ true = (initialState, []) :=
  non_press_event_is_noop initialState ⟨InputKey.back, InputType.release⟩ true
    (by decide) (by decide)
